import Mathlib

set_option maxRecDepth 8192

/-!
Verification of the keyring_tools repository (bulk CSV batch processor,
single-operation CLI, clipboard guard) against its specification.

The definitions below are a shallow embedding of `src/v2.0/keyring_tools.py`
(functions `process_bulk_csv`, `cli_handler`, `clear_clipboard_after`) and of
the secret-store contract of spec section 4.1 (the `keyring` backend is an
external dependency, so the store itself is modelled from the spec).
-/

namespace KeyringTools

/-! ## Constants (source lines 55-57) -/

def MAX_SYSTEM_LENGTH : Nat := 254
def MAX_USERNAME_LENGTH : Nat := 32
def MAX_PASSWORD_LENGTH : Nat := 400

/-! ## Secret store

Modelled from the spec: the external keyring backend (not part of this
repository) is, per spec sections 3 and 4.1, a map keyed by
`(system, username)` whose value is the password string; `get` on an absent
key returns an explicit absent result (Python `None`), and `delete` on an
absent key signals a not-found error (Python `keyring.errors.PasswordDeleteError`).
-/

/-- Modelled from the spec: the error taxonomy of the store adapter
(section 4.1).  The only error reachable through the pure map model is the
not-found error raised by deleting an absent entry. -/
inductive StoreError where
  | notFound
  deriving DecidableEq, Repr

/-- Modelled from the spec: the human-readable description of a store error,
the text Python obtains as `str(e)`. -/
def StoreError.description : StoreError → String
  | .notFound => "Password not found"

/-- One store entry: (system, username, password). -/
abbrev Entry := String × String × String

/-- First entry matching the (system, username) key. -/
def lookupEntry : List Entry → String → String → Option String
  | [], _, _ => none
  | e :: es, s, u => if e.1 = s ∧ e.2.1 = u then some e.2.2 else lookupEntry es s u

/-- Remove every entry matching the (system, username) key. -/
def removeEntry : List Entry → String → String → List Entry
  | [], _, _ => []
  | e :: es, s, u =>
    if e.1 = s ∧ e.2.1 = u then removeEntry es s u else e :: removeEntry es s u

/-- Modelled from the spec: the external secret store, a map keyed by
(system, username). -/
structure Store where
  entries : List Entry
  deriving DecidableEq, Repr

def emptyStore : Store := ⟨[]⟩

/-- Modelled from the spec: `get(system, username) -> password-or-absent`
(`keyring.get_password`; returns `none` for an absent entry). -/
def Store.get (st : Store) (system username : String) : Option String :=
  lookupEntry st.entries system username

/-- Modelled from the spec: `set(system, username, password)`
(`keyring.set_password`; overwrites any previous entry for the key). -/
def Store.set (st : Store) (system username password : String) : Store :=
  ⟨(system, username, password) :: st.entries⟩

/-- Modelled from the spec: `delete(system, username)`
(`keyring.delete_password`; not-found error when the key is absent). -/
def Store.delete (st : Store) (system username : String) : Except StoreError Store :=
  match st.get system username with
  | some _ => .ok ⟨removeEntry st.entries system username⟩
  | none => .error .notFound

/-- Trace element recording one invocation of the store adapter. -/
inductive StoreOp where
  | setOp (system username password : String)
  | getOp (system username : String)
  | delOp (system username : String)
  deriving DecidableEq, Repr

/-! ## CSV rows

`csv.DictReader` with the four-name header yields, for each data row, a dict
mapping each header name to the corresponding field, with Python `None`
(`restval`) for fields missing from a short row; extra fields beyond the
header are stored under the `None` key and never read by the program.
-/

/-- One parsed data row as `csv.DictReader` presents it: each named field is
`none` when the physical row had fewer fields than the header. -/
structure RawRow where
  function : Option String
  system : Option String
  username : Option String
  password : Option String
  deriving DecidableEq, Repr

/-- Build the `DictReader` view of a physical CSV row given as its list of
fields (extra fields beyond the fourth are ignored, as the program never
reads the `None` key). -/
def rowOfFields (fs : List String) : RawRow :=
  ⟨fs.get? 0, fs.get? 1, fs.get? 2, fs.get? 3⟩

/-- Python truthiness of `row.get(name)`: false for `None` and for the empty
string. -/
def pyTruthy : Option String → Bool
  | none => false
  | some s => s ≠ ""

/-- Model of Python `str.strip()`: drop leading and trailing whitespace.
(Defined by structural recursion on the character list so that it evaluates
by kernel reduction; Lean's `String.trim` agrees but does not reduce.) -/
def pyStrip (s : String) : String :=
  ⟨((s.data.dropWhile Char.isWhitespace).reverse.dropWhile Char.isWhitespace).reverse⟩

/-- Model of Python `str.lower()`: lowercase every character. -/
def pyLower (s : String) : String :=
  ⟨s.data.map Char.toLower⟩

/-- The guard of source line 141:
`not row.get("function") or not row.get("system") or not row.get("username")`. -/
def missingRequired (r : RawRow) : Bool :=
  !(pyTruthy r.function) || !(pyTruthy r.system) || !(pyTruthy r.username)

/-- Python rendering of `keyring.get_password`'s result inside an f-string:
`None` becomes the literal text `None` (source line 164). -/
def pyShowGet : Option String → String
  | none => "None"
  | some s => s

/-! ## Row processing (source lines 138-178) -/

/-- The recorded fate of one data row: the line written to the results log
(identical to the message pushed to the status reporter), its error flag,
the store operations the row invoked, the store afterwards, and the values
held by the handler locals `system`/`username` afterwards. -/
structure RowOutcome where
  line : String
  isErr : Bool
  ops : List StoreOp
  store : Store
  lastIds : Option (String × String)
  deriving DecidableEq, Repr

/-- One iteration of the row loop, source lines 139-178.

`lastIds` carries the values of the function locals `system`/`username`
from the last row that reached the assignments of lines 145-146 (`none`
when no row has).  The result is `none` exactly when the per-row exception
handler itself fails: when the missing-field `ValueError` of line 142 is
raised while `system` is still unbound, the f-string of line 176 raises
`UnboundLocalError`, which escapes the row loop (Python: local variable
referenced before assignment).

When the missing-field error fires with `lastIds` set, the handler builds
the error line from the STALE `system`/`username` of that earlier row.

A row whose `password` field is `None` (fewer than four fields) raises
`AttributeError` at line 147 (`None.strip()`); by then lines 145-146 have
run, so it is recorded like any other row failure.  (The Python text of
that error is `NoneType object has no attribute strip` up to quoting.) -/
def processRow (st : Store) (lastIds : Option (String × String)) (r : RawRow) :
    Option RowOutcome :=
  if missingRequired r then
    match lastIds with
    | none => none
    | some (ps, pu) =>
      some ⟨s!"ERROR: {ps}/{pu} - Missing required field(s): function, system, or username",
        true, [], st, lastIds⟩
  else
    let function := pyLower (pyStrip (r.function.getD ""))
    let system := pyStrip (r.system.getD "")
    let username := pyStrip (r.username.getD "")
    let ids := some (system, username)
    match r.password with
    | none =>
      some ⟨s!"ERROR: {system}/{username} - NoneType object has no attribute strip",
        true, [], st, ids⟩
    | some rawPwd =>
      let password := pyStrip rawPwd
      if system.length > MAX_SYSTEM_LENGTH then
        some ⟨s!"ERROR: {system}/{username} - System name must be ≤{MAX_SYSTEM_LENGTH} characters",
          true, [], st, ids⟩
      else if username.length > MAX_USERNAME_LENGTH then
        some ⟨s!"ERROR: {system}/{username} - Username must be ≤{MAX_USERNAME_LENGTH} characters",
          true, [], st, ids⟩
      else if function = "set" ∧ password.length > MAX_PASSWORD_LENGTH then
        some ⟨s!"ERROR: {system}/{username} - Password must be ≤{MAX_PASSWORD_LENGTH} characters",
          true, [], st, ids⟩
      else if function = "set" then
        some ⟨s!"SUCCESS: Set password for {system}/{username}",
          false, [.setOp system username password], st.set system username password, ids⟩
      else if function = "get" then
        some ⟨s!"SUCCESS: Get password for {system}/{username}: {pyShowGet (st.get system username)}",
          false, [.getOp system username], st, ids⟩
      else if function = "del" then
        match st.delete system username with
        | .ok st2 =>
          some ⟨s!"SUCCESS: Deleted password for {system}/{username}",
            false, [.delOp system username], st2, ids⟩
        | .error e =>
          some ⟨s!"ERROR: {system}/{username} - {e.description}",
            true, [.delOp system username], st, ids⟩
      else
        some ⟨s!"ERROR: {system}/{username} - Invalid function: {function}",
          true, [], st, ids⟩

/-- Accumulated effect of the row loop: one (line, error-flag) pair per
recorded row in input order, the store-adapter invocations, whether the
loop was aborted by the handler failure, and the final store. -/
structure BatchTrace where
  outcomes : List (String × Bool)
  ops : List StoreOp
  aborted : Bool
  store : Store
  deriving DecidableEq, Repr

/-- The row loop of source lines 138-178 over the remaining rows. -/
def runRows (st : Store) (lastIds : Option (String × String)) :
    List RawRow → BatchTrace
  | [] => ⟨[], [], false, st⟩
  | r :: rs =>
    match processRow st lastIds r with
    | some o =>
      let t := runRows o.store o.lastIds rs
      ⟨(o.line, o.isErr) :: t.outcomes, o.ops ++ t.ops, t.aborted, t.store⟩
    | none => ⟨[], [], true, st⟩

/-! ## Whole-batch processing (source lines 127-203) -/

/-- The expected value of `reader.fieldnames` (source line 134). -/
def headerFields : List String := ["function", "system", "username", "password"]

/-- Source lines 180, 106: the completion message. -/
def completionMsg : String :=
  "Bulk processing complete.\nResults saved to \"./keyring_results.txt\""

/-- Observable behaviour of one `process_bulk_csv` run in CLI mode
(`result_display = None`): the lines written to the results log, the store
operations invoked, the messages pushed to the status reporter with their
error flags, the process exit code (`sys.exit(1)` on any fatal error in CLI
mode; 0 means the function returned normally), the final store, and the
fatal message when the outer handler of lines 199-203 fired. -/
structure BulkRun where
  logLines : List String
  ops : List StoreOp
  statuses : List (String × Bool)
  exitCode : Nat
  store : Store
  fatal : Option String
  deriving DecidableEq, Repr

/-- Source line 200 wrapping of the exception text. -/
def fatalWrap (e : String) : String := s!"Failed to process CSV: {e}"

/-- The header-mismatch message of source line 135. -/
def headerErrMsg : String := "CSV must have headers: function,system,username,password"

/-- Python text (up to quoting and version) of the `UnboundLocalError`
raised by the handler of line 176 when `system` is unbound. -/
def unboundLocalMsg : String := "local variable system referenced before assignment"

/-- `process_bulk_csv` of source lines 86-203, in CLI mode, given the parsed
header row, the parsed data rows and the initial store state. -/
def process_bulk_csv (header : List String) (rows : List RawRow) (st : Store) :
    BulkRun :=
  if header = headerFields then
    let t := runRows st none rows
    if t.aborted then
      ⟨t.outcomes.map Prod.fst, t.ops,
        t.outcomes ++ [(fatalWrap unboundLocalMsg, true)],
        1, t.store, some (fatalWrap unboundLocalMsg)⟩
    else
      ⟨t.outcomes.map Prod.fst, t.ops,
        t.outcomes ++ [(completionMsg, false)],
        0, t.store, none⟩
  else
    ⟨[], [], [(fatalWrap headerErrMsg, true)], 1, st, some (fatalWrap headerErrMsg)⟩

/-! ## Single-operation CLI mode (source lines 242-258) -/

/-- A parsed single-operation command line. -/
inductive CliCommand where
  | set (system username password : String)
  | get (system username : String)
  | del (system username : String)
  deriving DecidableEq, Repr

/-- Observable behaviour of one single-operation CLI invocation. -/
structure CliResult where
  out : List String
  err : List String
  exitCode : Nat
  store : Store
  deriving DecidableEq, Repr

/-- The single-operation branch of `cli_handler`, source lines 242-258.
`keyring.errors.PasswordDeleteError` is caught at lines 253-255: two
explanatory lines are printed to stdout and the function falls through
WITHOUT calling `sys.exit`, so the process exits 0.  (The generic
`except Exception` branch of lines 256-258, which exits 1, is unreachable
through the pure map store, whose only error is the delete not-found.) -/
def cli_handler (cmd : CliCommand) (st : Store) : CliResult :=
  match cmd with
  | .set s u p =>
    ⟨[s!"Password set for \"{s}/{u}\"."], [], 0, st.set s u p⟩
  | .get s u =>
    let result := (st.get s u).getD "No password found"
    ⟨[s!"Get password for {s}/{u}: {result}"], [], 0, st⟩
  | .del s u =>
    match st.delete s u with
    | .ok st2 =>
      ⟨[s!"Credential store \"{s}/{u}\" has been deleted."], [], 0, st2⟩
    | .error _ =>
      ⟨["ERROR: Failed to delete credential store.",
        s!"Credential store \"{s}\" may not exist, or username \"{u}\" may be incorrect."],
        [], 0, st⟩

/-! ## Clipboard guard (source lines 73-83, 195-197, 660-671)

A timed-write model of the shared clipboard: each clipboard write is an
event (time, value); the clipboard content at time T is the value of the
latest event at or before T (between simultaneous events, the one scheduled
later wins; every clear writes the empty string, so either tie-break gives
the same emptiness result).  `clear_clipboard_after` spawns a daemon thread
that sleeps `delay` seconds and then writes the empty string, i.e. it
contributes the single event (now + delay, "").
-/

/-- One write to the shared clipboard. -/
structure ClipEvent where
  time : Nat
  value : String
  deriving DecidableEq, Repr

/-- `clear_clipboard_after(delay)` called at time `now` (source lines 73-83):
the spawned thread writes the empty string at `now + delay`. -/
def clear_clipboard_after (now delay : Nat) : ClipEvent := ⟨now + delay, ""⟩

/-- The clipboard-touching operations of the source. -/
inductive ClipOp where
  | interactiveCopy (now : Nat) (secret : String)
  | batchComplete (now : Nat)
  deriving DecidableEq, Repr

/-- The clipboard writes each operation produces, in scheduling order:
an interactive copy (source lines 660-671) writes the secret now and
schedules a 30-second clear; batch completion (source lines 195-197)
overwrites the clipboard with the empty string immediately and schedules a
1-second clear. -/
def ClipOp.events : ClipOp → List ClipEvent
  | .interactiveCopy now secret => [⟨now, secret⟩, clear_clipboard_after now 30]
  | .batchComplete now => [⟨now, ""⟩, clear_clipboard_after now 1]

/-- The time at which the operation's scheduled clear fires. -/
def ClipOp.clearTime : ClipOp → Nat
  | .interactiveCopy now _ => now + 30
  | .batchComplete now => now + 1

/-- All clipboard writes of a run, in scheduling order. -/
def clipTrace : List ClipOp → List ClipEvent
  | [] => []
  | op :: ops => op.events ++ clipTrace ops

/-- The latest time at which any scheduled clear of the run fires. -/
def clipHorizon : List ClipOp → Nat
  | [] => 0
  | op :: ops => max op.clearTime (clipHorizon ops)

/-- Fold step selecting, among the events at or before time `T`, the latest
one (later-scheduled wins ties). -/
def clipStep (T : Nat) (acc : Nat × String) (e : ClipEvent) : Nat × String :=
  if e.time ≤ T ∧ acc.1 ≤ e.time then (e.time, e.value) else acc

/-- Clipboard content at time `T` (empty before any write). -/
def clipboardAt (evs : List ClipEvent) (T : Nat) : String :=
  (evs.foldl (clipStep T) (0, "")).2

end KeyringTools

namespace KeyringTools

/-! ## Helper lemmas about single-row processing -/

lemma missingRequired_false {f sraw uraw : String} (pw : Option String)
    (hf : f ≠ "") (hs : sraw ≠ "") (hu : uraw ≠ "") :
    missingRequired ⟨some f, some sraw, some uraw, pw⟩ = false := by
  simp [missingRequired, pyTruthy, hf, hs, hu]

lemma processRow_set (st : Store) (last : Option (String × String))
    (f sraw uraw praw : String) (hf : f ≠ "") (hs : sraw ≠ "") (hu : uraw ≠ "")
    (hsl : (pyStrip sraw).length ≤ MAX_SYSTEM_LENGTH)
    (hul : (pyStrip uraw).length ≤ MAX_USERNAME_LENGTH)
    (hfun : pyLower (pyStrip f) = "set")
    (hpl : (pyStrip praw).length ≤ MAX_PASSWORD_LENGTH) :
    processRow st last ⟨some f, some sraw, some uraw, some praw⟩ =
      some ⟨s!"SUCCESS: Set password for {(pyStrip sraw)}/{(pyStrip uraw)}", false,
        [.setOp (pyStrip sraw) (pyStrip uraw) (pyStrip praw)],
        st.set (pyStrip sraw) (pyStrip uraw) (pyStrip praw), some ((pyStrip sraw), (pyStrip uraw))⟩ := by
  have h1 : ¬ (pyStrip sraw).length > MAX_SYSTEM_LENGTH := by omega
  have h2 : ¬ (pyStrip uraw).length > MAX_USERNAME_LENGTH := by omega
  have h3 : ¬ (pyStrip praw).length > MAX_PASSWORD_LENGTH := by omega
  simp [processRow, missingRequired, pyTruthy, hf, hs, hu, hfun, h1, h2, h3]

lemma processRow_get (st : Store) (last : Option (String × String))
    (f sraw uraw praw : String) (hf : f ≠ "") (hs : sraw ≠ "") (hu : uraw ≠ "")
    (hsl : (pyStrip sraw).length ≤ MAX_SYSTEM_LENGTH)
    (hul : (pyStrip uraw).length ≤ MAX_USERNAME_LENGTH)
    (hfun : pyLower (pyStrip f) = "get") :
    processRow st last ⟨some f, some sraw, some uraw, some praw⟩ =
      some ⟨s!"SUCCESS: Get password for {(pyStrip sraw)}/{(pyStrip uraw)}: {pyShowGet (st.get (pyStrip sraw) (pyStrip uraw))}",
        false, [.getOp (pyStrip sraw) (pyStrip uraw)], st, some ((pyStrip sraw), (pyStrip uraw))⟩ := by
  have h1 : ¬ (pyStrip sraw).length > MAX_SYSTEM_LENGTH := by omega
  have h2 : ¬ (pyStrip uraw).length > MAX_USERNAME_LENGTH := by omega
  simp [processRow, missingRequired, pyTruthy, hf, hs, hu, hfun, h1, h2]

lemma processRow_del (st : Store) (last : Option (String × String))
    (f sraw uraw praw : String) (hf : f ≠ "") (hs : sraw ≠ "") (hu : uraw ≠ "")
    (hsl : (pyStrip sraw).length ≤ MAX_SYSTEM_LENGTH)
    (hul : (pyStrip uraw).length ≤ MAX_USERNAME_LENGTH)
    (hfun : pyLower (pyStrip f) = "del") :
    processRow st last ⟨some f, some sraw, some uraw, some praw⟩ =
      match st.delete (pyStrip sraw) (pyStrip uraw) with
      | .ok st2 =>
        some ⟨s!"SUCCESS: Deleted password for {(pyStrip sraw)}/{(pyStrip uraw)}",
          false, [.delOp (pyStrip sraw) (pyStrip uraw)], st2, some ((pyStrip sraw), (pyStrip uraw))⟩
      | .error e =>
        some ⟨s!"ERROR: {(pyStrip sraw)}/{(pyStrip uraw)} - {e.description}",
          true, [.delOp (pyStrip sraw) (pyStrip uraw)], st, some ((pyStrip sraw), (pyStrip uraw))⟩ := by
  have h1 : ¬ (pyStrip sraw).length > MAX_SYSTEM_LENGTH := by omega
  have h2 : ¬ (pyStrip uraw).length > MAX_USERNAME_LENGTH := by omega
  simp [processRow, missingRequired, pyTruthy, hf, hs, hu, hfun, h1, h2]

lemma processRow_invalid (st : Store) (last : Option (String × String))
    (f sraw uraw praw : String) (hf : f ≠ "") (hs : sraw ≠ "") (hu : uraw ≠ "")
    (hsl : (pyStrip sraw).length ≤ MAX_SYSTEM_LENGTH)
    (hul : (pyStrip uraw).length ≤ MAX_USERNAME_LENGTH)
    (hne1 : pyLower (pyStrip f) ≠ "set") (hne2 : pyLower (pyStrip f) ≠ "get")
    (hne3 : pyLower (pyStrip f) ≠ "del") :
    processRow st last ⟨some f, some sraw, some uraw, some praw⟩ =
      some ⟨s!"ERROR: {(pyStrip sraw)}/{(pyStrip uraw)} - Invalid function: {pyLower (pyStrip f)}",
        true, [], st, some ((pyStrip sraw), (pyStrip uraw))⟩ := by
  have h1 : ¬ (pyStrip sraw).length > MAX_SYSTEM_LENGTH := by omega
  have h2 : ¬ (pyStrip uraw).length > MAX_USERNAME_LENGTH := by omega
  simp [processRow, missingRequired, pyTruthy, hf, hs, hu, hne1, hne2, hne3, h1, h2]

lemma processRow_syslen (st : Store) (last : Option (String × String))
    (f sraw uraw praw : String) (hf : f ≠ "") (hs : sraw ≠ "") (hu : uraw ≠ "")
    (hsl : (pyStrip sraw).length > MAX_SYSTEM_LENGTH) :
    processRow st last ⟨some f, some sraw, some uraw, some praw⟩ =
      some ⟨s!"ERROR: {(pyStrip sraw)}/{(pyStrip uraw)} - System name must be ≤{MAX_SYSTEM_LENGTH} characters",
        true, [], st, some ((pyStrip sraw), (pyStrip uraw))⟩ := by
  simp [processRow, missingRequired, pyTruthy, hf, hs, hu, hsl]

lemma processRow_usrlen (st : Store) (last : Option (String × String))
    (f sraw uraw praw : String) (hf : f ≠ "") (hs : sraw ≠ "") (hu : uraw ≠ "")
    (hsl : (pyStrip sraw).length ≤ MAX_SYSTEM_LENGTH)
    (hul : (pyStrip uraw).length > MAX_USERNAME_LENGTH) :
    processRow st last ⟨some f, some sraw, some uraw, some praw⟩ =
      some ⟨s!"ERROR: {(pyStrip sraw)}/{(pyStrip uraw)} - Username must be ≤{MAX_USERNAME_LENGTH} characters",
        true, [], st, some ((pyStrip sraw), (pyStrip uraw))⟩ := by
  have h1 : ¬ (pyStrip sraw).length > MAX_SYSTEM_LENGTH := by omega
  simp [processRow, missingRequired, pyTruthy, hf, hs, hu, h1, hul]

end KeyringTools

namespace KeyringTools

/-! ## Clipboard guard lemmas -/

lemma clipStep_block (T : Nat) (op : ClipOp) (acc : Nat × String)
    (hT : op.clearTime ≤ T) (hacc : acc.2 = "") :
    (op.events.foldl (clipStep T) acc).2 = "" := by
  cases op with
  | interactiveCopy now secret =>
    simp only [ClipOp.clearTime] at hT
    simp only [ClipOp.events, clear_clipboard_after, List.foldl, clipStep]
    split_ifs with h1 h2 h2 <;> simp_all
  | batchComplete now =>
    simp only [ClipOp.clearTime] at hT
    simp only [ClipOp.events, clear_clipboard_after, List.foldl, clipStep]
    split_ifs with h1 h2 h2 <;> simp_all

lemma clipTrace_foldl_empty (T : Nat) :
    ∀ (ops : List ClipOp) (acc : Nat × String), clipHorizon ops ≤ T → acc.2 = "" →
      ((clipTrace ops).foldl (clipStep T) acc).2 = "" := by
  intro ops
  induction ops with
  | nil => intro acc _ hacc; simpa [clipTrace] using hacc
  | cons op ops ih =>
    intro acc hT hacc
    rw [clipHorizon, max_le_iff] at hT
    rw [clipTrace, List.foldl_append]
    exact ih _ hT.2 (clipStep_block T op acc hT.1 hacc)

end KeyringTools

namespace KeyringTools

/-! ## Claim theorems -/

/-- C1, counterexample: a batch row `set,svc,alice,` (operation `set`, empty
password) does NOT yield a Failure outcome: the run records a SUCCESS log
line and the store set operation IS invoked with the empty password,
contradicting the claim at this concrete input. -/
theorem C1_counterexample :
    (process_bulk_csv headerFields [rowOfFields ["set", "svc", "alice", ""]] emptyStore).logLines =
      ["SUCCESS: Set password for svc/alice"] ∧
    (process_bulk_csv headerFields [rowOfFields ["set", "svc", "alice", ""]] emptyStore).ops =
      [.setOp "svc" "alice" ""] := by
  decide

/-- C1, amended: in batch mode, a row whose operation is set
(case-insensitively) and whose password field is present but empty after
trimming passes validation (only passwords longer than MAX_PASSWORD_LENGTH
are rejected), invokes the store set operation with the empty password, and
yields a Success outcome — regardless of the (valid) system and username
fields and of the store's contents. -/
theorem C1_amended (st : Store) (last : Option (String × String))
    (f sraw uraw praw : String) (hf : f ≠ "") (hs : sraw ≠ "") (hu : uraw ≠ "")
    (hsl : (pyStrip sraw).length ≤ MAX_SYSTEM_LENGTH)
    (hul : (pyStrip uraw).length ≤ MAX_USERNAME_LENGTH)
    (hfun : pyLower (pyStrip f) = "set") (hpw : (pyStrip praw) = "") :
    processRow st last ⟨some f, some sraw, some uraw, some praw⟩ =
      some ⟨s!"SUCCESS: Set password for {(pyStrip sraw)}/{(pyStrip uraw)}", false,
        [.setOp (pyStrip sraw) (pyStrip uraw) ""], st.set (pyStrip sraw) (pyStrip uraw) "",
        some ((pyStrip sraw), (pyStrip uraw))⟩ := by
  have h := processRow_set st last f sraw uraw praw hf hs hu hsl hul hfun
    (by rw [hpw]; simp [MAX_PASSWORD_LENGTH])
  rwa [hpw] at h

/-- C1, witness for the amended theorem at a concrete input. -/
theorem C1_witness :
    processRow emptyStore none ⟨some "set", some "svc", some "alice", some ""⟩ =
      some ⟨"SUCCESS: Set password for svc/alice", false, [.setOp "svc" "alice" ""],
        Store.set emptyStore "svc" "alice" "", some ("svc", "alice")⟩ := by
  rw [C1_amended emptyStore none "set" "svc" "alice" "" (by decide) (by decide) (by decide)
    (by decide) (by decide) (by decide) (by decide)]
  decide

/-- C2: the code contradicts the claim (and the spec's intent, which the
per-row exception handler embodies): in the batch
`function,system,username,password` / `,svc,alice,pw` / `set,svc2,bob,pw2`
the FIRST data row fails the missing-field check before the locals
`system`/`username` are assigned, the handler of source line 176 then raises
`UnboundLocalError`, and the whole batch aborts: zero outcome lines are
produced for the two data rows and the CLI exits 1 — the second row is never
processed. -/
theorem C2_first_row_failure_aborts_batch :
    (process_bulk_csv headerFields
        [rowOfFields ["", "svc", "alice", "pw"], rowOfFields ["set", "svc2", "bob", "pw2"]]
        emptyStore).logLines = [] ∧
    (process_bulk_csv headerFields
        [rowOfFields ["", "svc", "alice", "pw"], rowOfFields ["set", "svc2", "bob", "pw2"]]
        emptyStore).ops = [] ∧
    (process_bulk_csv headerFields
        [rowOfFields ["", "svc", "alice", "pw"], rowOfFields ["set", "svc2", "bob", "pw2"]]
        emptyStore).exitCode = 1 := by
  decide

/-- C3, counterexample: the word `delete` is NOT an accepted operation: the
row `delete,svc,alice,x` is not dispatched to the store delete operation but
fails with `Invalid function: delete` (the source accepts `del` instead). -/
theorem C3_counterexample :
    processRow emptyStore none (rowOfFields ["delete", "svc", "alice", "x"]) =
      some ⟨"ERROR: svc/alice - Invalid function: delete", true, [], emptyStore,
        some ("svc", "alice")⟩ := by
  decide

/-- C3, amended: for every row with valid fields, the operation field is
trimmed and lowercased, a token equal to one of the three words set, get,
del (in any letter case) is dispatched to the corresponding store operation,
and every other token — including `delete` — fails the row with a
descriptive reason naming the invalid function. -/
theorem C3_amended (st : Store) (last : Option (String × String))
    (f sraw uraw praw : String) (hf : f ≠ "") (hs : sraw ≠ "") (hu : uraw ≠ "")
    (hsl : (pyStrip sraw).length ≤ MAX_SYSTEM_LENGTH)
    (hul : (pyStrip uraw).length ≤ MAX_USERNAME_LENGTH) :
    (pyLower (pyStrip f) = "set" → (pyStrip praw).length ≤ MAX_PASSWORD_LENGTH →
      processRow st last ⟨some f, some sraw, some uraw, some praw⟩ =
        some ⟨s!"SUCCESS: Set password for {(pyStrip sraw)}/{(pyStrip uraw)}", false,
          [.setOp (pyStrip sraw) (pyStrip uraw) (pyStrip praw)],
          st.set (pyStrip sraw) (pyStrip uraw) (pyStrip praw), some ((pyStrip sraw), (pyStrip uraw))⟩) ∧
    (pyLower (pyStrip f) = "get" →
      processRow st last ⟨some f, some sraw, some uraw, some praw⟩ =
        some ⟨s!"SUCCESS: Get password for {(pyStrip sraw)}/{(pyStrip uraw)}: {pyShowGet (st.get (pyStrip sraw) (pyStrip uraw))}",
          false, [.getOp (pyStrip sraw) (pyStrip uraw)], st, some ((pyStrip sraw), (pyStrip uraw))⟩) ∧
    (pyLower (pyStrip f) = "del" →
      Option.map RowOutcome.ops (processRow st last ⟨some f, some sraw, some uraw, some praw⟩) =
        some [.delOp (pyStrip sraw) (pyStrip uraw)]) ∧
    (pyLower (pyStrip f) ≠ "set" → pyLower (pyStrip f) ≠ "get" → pyLower (pyStrip f) ≠ "del" →
      processRow st last ⟨some f, some sraw, some uraw, some praw⟩ =
        some ⟨s!"ERROR: {(pyStrip sraw)}/{(pyStrip uraw)} - Invalid function: {pyLower (pyStrip f)}",
          true, [], st, some ((pyStrip sraw), (pyStrip uraw))⟩) := by
  refine ⟨fun hfun hpl => processRow_set st last f sraw uraw praw hf hs hu hsl hul hfun hpl,
    fun hfun => processRow_get st last f sraw uraw praw hf hs hu hsl hul hfun,
    fun hfun => ?_,
    fun h1 h2 h3 => processRow_invalid st last f sraw uraw praw hf hs hu hsl hul h1 h2 h3⟩
  rw [processRow_del st last f sraw uraw praw hf hs hu hsl hul hfun]
  cases st.delete (pyStrip sraw) (pyStrip uraw) <;> simp

/-- C3, witness for the amended theorem: `GET` (upper case) is dispatched to
the store get operation. -/
theorem C3_witness :
    processRow emptyStore none ⟨some "GET", some "svc", some "alice", some ""⟩ =
      some ⟨"SUCCESS: Get password for svc/alice: None", false, [.getOp "svc" "alice"],
        emptyStore, some ("svc", "alice")⟩ := by
  rw [(C3_amended emptyStore none "GET" "svc" "alice" "" (by decide) (by decide) (by decide)
    (by decide) (by decide)).2.1 (by decide)]
  decide

/-- C4, counterexample: a row whose system consists only of whitespace is
NOT rejected: emptiness is checked on the raw fields before trimming, so
`get, ,alice,` trims the system to the empty string and SUCCEEDS,
contradicting the claim that such a row always fails. -/
theorem C4_counterexample :
    processRow emptyStore none (rowOfFields ["get", " ", "alice", ""]) =
      some ⟨"SUCCESS: Get password for /alice: None", false, [.getOp "" "alice"],
        emptyStore, some ("", "alice")⟩ := by
  decide

/-- C4, amended: each field is trimmed of leading/trailing whitespace before
validation and the length bounds are checked on the trimmed values: a row
whose trimmed system exceeds 254 characters (in particular a 255-character
system) always fails citing the system-length limit, and a row whose trimmed
system is within bounds but whose trimmed username exceeds 32 characters
always fails citing the username-length limit.  Emptiness, however, is
checked on the raw untrimmed fields only (missing-field check), so a system
or username consisting only of whitespace is NOT rejected. -/
theorem C4_amended (st : Store) (last : Option (String × String))
    (f sraw uraw praw : String) (hf : f ≠ "") (hs : sraw ≠ "") (hu : uraw ≠ "") :
    ((pyStrip sraw).length > MAX_SYSTEM_LENGTH →
      processRow st last ⟨some f, some sraw, some uraw, some praw⟩ =
        some ⟨s!"ERROR: {(pyStrip sraw)}/{(pyStrip uraw)} - System name must be ≤{MAX_SYSTEM_LENGTH} characters",
          true, [], st, some ((pyStrip sraw), (pyStrip uraw))⟩) ∧
    ((pyStrip sraw).length ≤ MAX_SYSTEM_LENGTH → (pyStrip uraw).length > MAX_USERNAME_LENGTH →
      processRow st last ⟨some f, some sraw, some uraw, some praw⟩ =
        some ⟨s!"ERROR: {(pyStrip sraw)}/{(pyStrip uraw)} - Username must be ≤{MAX_USERNAME_LENGTH} characters",
          true, [], st, some ((pyStrip sraw), (pyStrip uraw))⟩) :=
  ⟨fun hsl => processRow_syslen st last f sraw uraw praw hf hs hu hsl,
   fun hsl hul => processRow_usrlen st last f sraw uraw praw hf hs hu hsl hul⟩

/-- C4, witness for the amended theorem: a 255-character system name fails
citing the system-length limit. -/
theorem C4_witness :
    processRow emptyStore none
        ⟨some "set", some (String.mk (List.replicate 255 'a')), some "alice", some "pw"⟩ =
      some ⟨"ERROR: " ++ String.mk (List.replicate 255 'a') ++
          "/alice - System name must be ≤254 characters",
        true, [], emptyStore,
        some (String.mk (List.replicate 255 'a'), "alice")⟩ := by
  rw [(C4_amended emptyStore none "set" (String.mk (List.replicate 255 'a')) "alice" "pw"
    (by decide) (by decide) (by decide)).1 (by decide)]
  decide

end KeyringTools

namespace KeyringTools

/-- C5: for every input whose header row differs from the exact sequence
function,system,username,password, the batch fails fatally before any row is
processed: zero outcome lines are written to the results log, zero store
operations are invoked, the failure is surfaced exactly once via the status
reporter (as an error), and in CLI mode the process exits 1. -/
theorem C5_header_mismatch_fatal (header : List String) (rows : List RawRow) (st : Store)
    (h : header ≠ headerFields) :
    process_bulk_csv header rows st =
      ⟨[], [], [(fatalWrap headerErrMsg, true)], 1, st, some (fatalWrap headerErrMsg)⟩ := by
  simp [process_bulk_csv, h]

/-- C5, witness: the misspelled header `func,system,username,password`. -/
theorem C5_witness :
    process_bulk_csv ["func", "system", "username", "password"]
        [rowOfFields ["set", "svc", "alice", "pw"]] emptyStore =
      ⟨[], [], [(fatalWrap headerErrMsg, true)], 1, emptyStore, some (fatalWrap headerErrMsg)⟩ :=
  C5_header_mismatch_fatal _ _ _ (by decide)

/-- C6: in batch mode, a del row naming a (system, username) pair with no
existing entry in the store yields a Failure outcome carrying the store
error's description, never a Success outcome, no store state changes, and
processing continues with the remaining rows. -/
theorem C6_delete_absent_fails_and_continues (st : Store) (last : Option (String × String))
    (f sraw uraw praw : String) (rs : List RawRow)
    (hf : f ≠ "") (hs : sraw ≠ "") (hu : uraw ≠ "")
    (hsl : (pyStrip sraw).length ≤ MAX_SYSTEM_LENGTH)
    (hul : (pyStrip uraw).length ≤ MAX_USERNAME_LENGTH)
    (hfun : pyLower (pyStrip f) = "del")
    (habs : st.get (pyStrip sraw) (pyStrip uraw) = none) :
    runRows st last (⟨some f, some sraw, some uraw, some praw⟩ :: rs) =
      ⟨(s!"ERROR: {(pyStrip sraw)}/{(pyStrip uraw)} - {StoreError.notFound.description}", true) ::
          (runRows st (some (pyStrip sraw, pyStrip uraw)) rs).outcomes,
        .delOp (pyStrip sraw) (pyStrip uraw) ::
          (runRows st (some (pyStrip sraw, pyStrip uraw)) rs).ops,
        (runRows st (some (pyStrip sraw, pyStrip uraw)) rs).aborted,
        (runRows st (some (pyStrip sraw, pyStrip uraw)) rs).store⟩ := by
  have hdel : st.delete (pyStrip sraw) (pyStrip uraw) = .error .notFound := by
    simp [Store.delete, habs]
  rw [runRows, processRow_del st last f sraw uraw praw hf hs hu hsl hul hfun, hdel]
  simp

/-- C6, witness: deleting `svc/alice` from an empty store. -/
theorem C6_witness :
    runRows emptyStore none [⟨some "del", some "svc", some "alice", some ""⟩] =
      ⟨[("ERROR: svc/alice - Password not found", true)], [.delOp "svc" "alice"],
        false, emptyStore⟩ := by
  rw [C6_delete_absent_fails_and_continues emptyStore none "del" "svc" "alice" "" []
    (by decide) (by decide) (by decide) (by decide) (by decide) (by decide) (by decide)]
  decide

/-- C7, counterexample: deleting a non-existent (system, username) entry in
single-operation CLI mode does NOT cause a nonzero exit: the error is caught
(`keyring.errors.PasswordDeleteError`), messages are printed, and the
process exits 0, contradicting the claim. -/
theorem C7_counterexample :
    (cli_handler (.del "svc" "alice") emptyStore).exitCode = 0 ∧
    (cli_handler (.del "svc" "alice") emptyStore).out ≠ [] := by
  decide

/-- C7, amended: in single-operation CLI mode the not-found error raised by
deleting a non-existent (system, username) entry is surfaced to the user as
two explanatory messages, but the process exits 0 — not nonzero (the
PasswordDeleteError handler of source lines 253-255 does not call
`sys.exit`). -/
theorem C7_amended (st : Store) (s u : String) (h : st.get s u = none) :
    cli_handler (.del s u) st =
      ⟨["ERROR: Failed to delete credential store.",
        s!"Credential store \"{s}\" may not exist, or username \"{u}\" may be incorrect."],
        [], 0, st⟩ := by
  simp [cli_handler, Store.delete, h]

/-- C7, witness for the amended theorem. -/
theorem C7_witness :
    cli_handler (.del "svc" "alice") emptyStore =
      ⟨["ERROR: Failed to delete credential store.",
        "Credential store \"svc\" may not exist, or username \"alice\" may be incorrect."],
        [], 0, emptyStore⟩ := by
  rw [C7_amended emptyStore "svc" "alice" (by decide)]
  decide

/-- C8: for every store state, system, username and password, performing the
store set operation and then the get operation with the same key returns
exactly that password; in particular the batch
`set,svc,alice,p@ss` / `get,svc,alice,` logs the set confirmation and then
`Get password for svc/alice: p@ss`. -/
theorem C8_set_get_roundtrip :
    (∀ (st : Store) (s u p : String), (st.set s u p).get s u = some p) ∧
    (process_bulk_csv headerFields
        [rowOfFields ["set", "svc", "alice", "p@ss"], rowOfFields ["get", "svc", "alice", ""]]
        emptyStore).logLines =
      ["SUCCESS: Set password for svc/alice", "SUCCESS: Get password for svc/alice: p@ss"] := by
  constructor
  · intro st s u p
    simp [Store.set, Store.get, lookupEntry]
  · decide

/-- C9: every clipboard copy schedules a deferred clear — 30 seconds for an
interactive copy, 1 second for the end-of-batch sweep, which additionally
overwrites the clipboard immediately (first event of the block) before
scheduling the sweep — and for every sequence of copy operations, at every
time at or after the latest scheduled clear the clipboard is empty. -/
theorem C9_clipboard_guard :
    (∀ (now : Nat) (secret : String),
      ClipOp.events (.interactiveCopy now secret) = [⟨now, secret⟩, clear_clipboard_after now 30]) ∧
    (∀ now : Nat, ClipOp.events (.batchComplete now) = [⟨now, ""⟩, clear_clipboard_after now 1]) ∧
    (∀ (ops : List ClipOp) (T : Nat), clipHorizon ops ≤ T → clipboardAt (clipTrace ops) T = "") := by
  refine ⟨fun _ _ => rfl, fun _ => rfl, fun ops T hT => ?_⟩
  exact clipTrace_foldl_empty T ops (0, "") hT rfl

/-- C9, witness: an interactive copy at time 0 and a batch completion at
time 5; at time 30 (the latest scheduled clear) the clipboard is empty. -/
theorem C9_witness :
    clipHorizon [ClipOp.interactiveCopy 0 "pw", ClipOp.batchComplete 5] ≤ 30 ∧
    clipboardAt (clipTrace [ClipOp.interactiveCopy 0 "pw", ClipOp.batchComplete 5]) 30 = "" :=
  ⟨by decide, C9_clipboard_guard.2.2 _ 30 (by decide)⟩

/-- C10: in batch mode, a get row for a (system, username) pair with no
entry in the store yields a SUCCESS outcome (error flag false) whose log
line reports the absent password as the literal text None. -/
theorem C10_get_absent_reports_success_none (st : Store) (last : Option (String × String))
    (f sraw uraw praw : String)
    (hf : f ≠ "") (hs : sraw ≠ "") (hu : uraw ≠ "")
    (hsl : (pyStrip sraw).length ≤ MAX_SYSTEM_LENGTH)
    (hul : (pyStrip uraw).length ≤ MAX_USERNAME_LENGTH)
    (hfun : pyLower (pyStrip f) = "get")
    (habs : st.get (pyStrip sraw) (pyStrip uraw) = none) :
    processRow st last ⟨some f, some sraw, some uraw, some praw⟩ =
      some ⟨s!"SUCCESS: Get password for {(pyStrip sraw)}/{(pyStrip uraw)}: {pyShowGet none}",
        false, [.getOp (pyStrip sraw) (pyStrip uraw)], st, some (pyStrip sraw, pyStrip uraw)⟩ := by
  rw [processRow_get st last f sraw uraw praw hf hs hu hsl hul hfun, habs]

/-- C10, witness: `get,svc,alice,` against the empty store logs
`SUCCESS: Get password for svc/alice: None`. -/
theorem C10_witness :
    processRow emptyStore none ⟨some "get", some "svc", some "alice", some ""⟩ =
      some ⟨"SUCCESS: Get password for svc/alice: None", false, [.getOp "svc" "alice"],
        emptyStore, some ("svc", "alice")⟩ := by
  rw [C10_get_absent_reports_success_none emptyStore none "get" "svc" "alice" ""
    (by decide) (by decide) (by decide) (by decide) (by decide) (by decide) (by decide)]
  decide

end KeyringTools
